import Mathlib

/-!
# VideoVanish playback engine: verification of the claimed properties

Shallow embedding of the frame-indexed annotation and synchronized
playback engine of videovanish.py. Machine integers are modelled as
integers, Python floats as rational numbers, and fallible code through
Except. Definitions follow the source functions; theorems settle each
claim about them.
-/

namespace VideoVanish

/-! ## Frame-Time Mapper (videovanish.py, ms_to_frame and frame_to_ms)

Python rounds with the built-in round, which rounds half to even.
pyRound models that rule on rationals. -/

/-- Python round on a rational: nearest integer, ties to the even one. -/
def pyRound (q : ℚ) : ℤ :=
  if q - (⌊q⌋ : ℚ) < 1/2 then ⌊q⌋
  else if 1/2 < q - (⌊q⌋ : ℚ) then ⌊q⌋ + 1
  else if ⌊q⌋ % 2 = 0 then ⌊q⌋ else ⌊q⌋ + 1

/-- Source: ms_to_frame(ms, fps) = int(round((ms / 1000.0) * fps)). -/
def ms_to_frame (ms : ℤ) (fps : ℚ) : ℤ := pyRound ((ms : ℚ) / 1000 * fps)

/-- Source: frame_to_ms(fi, fps) = int(round((fi / fps) * 1000.0)). -/
def frame_to_ms (fi : ℤ) (fps : ℚ) : ℤ := pyRound ((fi : ℚ) / fps * 1000)

/-! ## Annotation data (videovanish.py, class Keyframe)

A point is (x_norm, y_norm, obj_id); a rectangle is
(x_norm, y_norm, w_norm, h_norm, obj_id). -/

/-- Source: dataclass Keyframe with pos_clicks, neg_clicks, rects. -/
structure Keyframe where
  frame_idx : ℤ
  pos_clicks : List (ℚ × ℚ × ℤ) := []
  neg_clicks : List (ℚ × ℚ × ℤ) := []
  rects : List (ℚ × ℚ × ℚ × ℚ × ℤ) := []
deriving DecidableEq, Repr

/-- Total number of annotations held by a keyframe. -/
def totalAnns (kf : Keyframe) : ℕ :=
  kf.pos_clicks.length + kf.neg_clicks.length + kf.rects.length

/-! ## Delete-nearest (videovanish.py, VideoPlayer._on_delete_at)

The query point (nx, ny) is in normalized coordinates; W and H are the
width and height of the current display rectangle (both at least 1 in
the source). The fixed pixel radius is R_px = 8.0. -/

/-- Source test in pop_near_point: sqrt(dx*dx + dy*dy) <= R_px with
dx = abs(nx - px) * W and dy = abs(ny - py) * H. Squaring both sides
(both are nonnegative) gives the equivalent polynomial test used here. -/
def nearPointB (nx ny W H : ℚ) (p : ℚ × ℚ × ℤ) : Bool :=
  decide (((nx - p.1) * W) ^ 2 + ((ny - p.2.1) * H) ^ 2 ≤ 64)

/-- Source: near_rect_edge tests the query point against all four edges
of the rectangle, with Rx = R_px / W and Ry = R_px / H. -/
def nearRectEdgeB (nx ny W H : ℚ) (r : ℚ × ℚ × ℚ × ℚ × ℤ) : Bool :=
  let rx := r.1
  let ry := r.2.1
  let rw := r.2.2.1
  let rh := r.2.2.2.1
  let Rx := 8 / W
  let Ry := 8 / H
  let l := |nx - rx| ≤ Rx ∧ ry - Ry ≤ ny ∧ ny ≤ ry + rh + Ry
  let r2 := |nx - (rx + rw)| ≤ Rx ∧ ry - Ry ≤ ny ∧ ny ≤ ry + rh + Ry
  let t := |ny - ry| ≤ Ry ∧ rx - Rx ≤ nx ∧ nx ≤ rx + rw + Rx
  let b := |ny - (ry + rh)| ≤ Ry ∧ rx - Rx ≤ nx ∧ nx ≤ rx + rw + Rx
  decide (l ∨ r2 ∨ t ∨ b)

/-- Remove the first element satisfying f; none when no element does.
Mirrors the pop-at-first-match loops in the source. -/
def popFirst {α : Type} (f : α → Bool) : List α → Option (List α)
  | [] => none
  | x :: xs => if f x then some xs else (popFirst f xs).map (x :: ·)

/-- Source: the removal performed by _on_delete_at on one keyframe:
positive points first, then negative points, then rectangle edges;
at most one annotation is removed. -/
def deleteAtKf (kf : Keyframe) (nx ny W H : ℚ) : Keyframe :=
  match popFirst (nearPointB nx ny W H) kf.pos_clicks with
  | some ps => { kf with pos_clicks := ps }
  | none =>
    match popFirst (nearPointB nx ny W H) kf.neg_clicks with
    | some ns => { kf with neg_clicks := ns }
    | none =>
      match popFirst (nearRectEdgeB nx ny W H) kf.rects with
      | some rs => { kf with rects := rs }
      | none => kf

/-! ## Single-frame annotation store (videovanish.py, VideoPlayer)

The store is keyframes, a dict from frame index to Keyframe. The claims
about add/delete sequences act on a single frame index, so the store is
modelled as the optional Keyframe at that index. -/

/-- Source: _prune_if_empty removes the keyframe from the store when it
has no points and no rectangles. -/
def pruneIfEmpty (kf : Keyframe) : Option Keyframe :=
  if kf.pos_clicks.isEmpty && kf.neg_clicks.isEmpty && kf.rects.isEmpty
  then none else some kf

/-- The add and delete operations a user can perform at one frame. -/
inductive AnnOp
  | addPos (nx ny : ℚ) (obj : ℤ)
  | addNeg (nx ny : ℚ) (obj : ℤ)
  | addRect (nx ny nw nh : ℚ) (obj : ℤ)
  | deleteAt (nx ny W H : ℚ)
deriving DecidableEq, Repr

/-- Source: _on_add_positive, _on_add_negative, _on_add_rect (each does
_get_or_make_kf then appends), and _on_delete_at followed by
_prune_if_empty when a point or rectangle was removed. -/
def applyOp (fi : ℤ) (st : Option Keyframe) : AnnOp → Option Keyframe
  | .addPos nx ny obj =>
    let kf := st.getD { frame_idx := fi }
    some { kf with pos_clicks := kf.pos_clicks ++ [(nx, ny, obj)] }
  | .addNeg nx ny obj =>
    let kf := st.getD { frame_idx := fi }
    some { kf with neg_clicks := kf.neg_clicks ++ [(nx, ny, obj)] }
  | .addRect nx ny nw nh obj =>
    let kf := st.getD { frame_idx := fi }
    some { kf with rects := kf.rects ++ [(nx, ny, nw, nh, obj)] }
  | .deleteAt nx ny W H =>
    match st with
    | none => none
    | some kf =>
      match popFirst (nearPointB nx ny W H) kf.pos_clicks with
      | some ps => pruneIfEmpty { kf with pos_clicks := ps }
      | none =>
        match popFirst (nearPointB nx ny W H) kf.neg_clicks with
        | some ns => pruneIfEmpty { kf with neg_clicks := ns }
        | none =>
          match popFirst (nearRectEdgeB nx ny W H) kf.rects with
          | some rs => pruneIfEmpty { kf with rects := rs }
          | none => some kf

/-- The invariant claimed for the store: a keyframe that is present
holds at least one point or rectangle. -/
def storeInvariant : Option Keyframe → Prop
  | none => True
  | some kf => ¬ (kf.pos_clicks = [] ∧ kf.neg_clicks = [] ∧ kf.rects = [])

/-! ## Annotation import (videovanish.py, VideoPlayer.load_from_json_obj)

JSON leaf values are modelled by whether the Python conversions
float(...) and int(...) succeed on them; on success the numeric value is
a rational. Coordinate entries are either dicts (with optional obj key)
or legacy arrays. -/

/-- A JSON value in a coordinate or object-id position: convertible to a
number, or not (float() / int() raise on it). -/
inductive JNum
  | ok (q : ℚ)
  | bad
deriving DecidableEq, Repr

/-- Python float(v): the numeric value, or an exception. -/
def pyFloat : JNum → Except String ℚ
  | .ok q => .ok q
  | .bad => .error "could not convert value to float"

/-- Python int(v) truncates toward zero. -/
def pyTrunc (q : ℚ) : ℤ := if 0 ≤ q then ⌊q⌋ else -⌊-q⌋

/-- Python int(v): the truncated value, or an exception. -/
def pyInt : JNum → Except String ℤ
  | .ok q => .ok (pyTrunc q)
  | .bad => .error "could not convert value to int"

/-- A point entry of the JSON record: a dict with x, y and an optional
obj key, or the legacy array form holding x and y. -/
inductive JPoint
  | dict (x y : JNum) (obj : Option JNum)
  | arr (x y : JNum)
deriving DecidableEq, Repr

/-- A rectangle entry of the JSON record. -/
inductive JRect
  | dict (x y w h : JNum) (obj : Option JNum)
  | arr (x y w h : JNum)
deriving DecidableEq, Repr

/-- One keyframe entry of the JSON record. -/
structure JKeyframe where
  frame_idx : ℤ
  pos_clicks : List JPoint := []
  neg_clicks : List JPoint := []
  rects : List JRect := []
deriving DecidableEq, Repr

/-- The persisted annotation record. -/
structure JRecord where
  keyframes : List JKeyframe := []
deriving DecidableEq, Repr

/-- Source: the body of parse_pts for one entry. A dict entry reads
float(v["x"]), float(v["y"]) and int(v.get("obj", 1)); a legacy array
entry reads float(x), float(y) and object id 1. -/
def parsePoint : JPoint → Except String (ℚ × ℚ × ℤ)
  | .dict x y obj => do
    let xv ← pyFloat x
    let yv ← pyFloat y
    let ov ← match obj with
      | some j => pyInt j
      | none => pure 1
    pure (xv, yv, ov)
  | .arr x y => do
    let xv ← pyFloat x
    let yv ← pyFloat y
    pure (xv, yv, 1)

/-- Source: the body of parse_rects for one entry. -/
def parseRect : JRect → Except String (ℚ × ℚ × ℚ × ℚ × ℤ)
  | .dict x y w h obj => do
    let xv ← pyFloat x
    let yv ← pyFloat y
    let wv ← pyFloat w
    let hv ← pyFloat h
    let ov ← match obj with
      | some j => pyInt j
      | none => pure 1
    pure (xv, yv, wv, hv, ov)
  | .arr x y w h => do
    let xv ← pyFloat x
    let yv ← pyFloat y
    let wv ← pyFloat w
    let hv ← pyFloat h
    pure (xv, yv, wv, hv, 1)

/-- Source: parse_pts, a loop appending each parsed entry; the first
exception aborts the whole loop. -/
def parsePoints : List JPoint → Except String (List (ℚ × ℚ × ℤ))
  | [] => .ok []
  | p :: rest => do
    let v ← parsePoint p
    let vs ← parsePoints rest
    pure (v :: vs)

/-- Source: parse_rects, same loop shape as parse_pts. -/
def parseRects : List JRect → Except String (List (ℚ × ℚ × ℚ × ℚ × ℤ))
  | [] => .ok []
  | r :: rest => do
    let v ← parseRect r
    let vs ← parseRects rest
    pure (v :: vs)

/-- Source: one iteration of the entry loop in load_from_json_obj,
building Keyframe(frame_idx, parse_pts(pos), parse_pts(neg),
parse_rects(rects)). There is no try/except around it. -/
def parseKeyframe (e : JKeyframe) : Except String Keyframe := do
  let pos ← parsePoints e.pos_clicks
  let neg ← parsePoints e.neg_clicks
  let rs ← parseRects e.rects
  pure { frame_idx := e.frame_idx, pos_clicks := pos, neg_clicks := neg,
         rects := rs }

/-- Source: the entry loop of load_from_json_obj. Entries are parsed and
inserted one by one; an exception aborts the loop, keeping the entries
inserted so far and discarding the rest. The result is the list of
inserted keyframes in record order together with the error, if any.
The dict keying by frame_idx is kept as the insertion sequence. -/
def loadEntries : List JKeyframe → List Keyframe × Option String
  | [] => ([], none)
  | e :: rest =>
    match parseKeyframe e with
    | .error msg => ([], some msg)
    | .ok kf =>
      let (ks, err) := loadEntries rest
      (kf :: ks, err)

/-- Source: load_from_json_obj. The store is cleared first (so the
result below is the entire store afterwards), then the record entries
are loaded. -/
def load_from_json_obj (r : JRecord) : List Keyframe × Option String :=
  loadEntries r.keyframes

/-! ## FPS resolution (videovanish.py, VideoPlayer._on_master_media_status)

The metadata value for QMediaMetaData.VideoFrameRate is either missing
(None), present but not convertible by float(), or a numeric value. -/

/-- The three shapes a frame-rate metadata value can take. -/
inductive FpsMeta
  | absent
  | malformed
  | value (q : ℚ)
deriving DecidableEq, Repr

/-- Source: the metadata checks in _on_master_media_status: a missing
value raises, a value float() rejects raises, a non-positive value
raises, otherwise the value is accepted. -/
def resolveFps : FpsMeta → Except String ℚ
  | .absent =>
    .error "Video FPS could not be determined from metadata. Re-encode or provide valid FPS."
  | .malformed => .error "Invalid FPS metadata value"
  | .value q =>
    if q ≤ 0 then .error "Non-positive FPS in metadata" else .ok q

/-- Whether the metadata fails to yield a positive numeric frame rate. -/
def badFpsMeta : FpsMeta → Prop
  | .absent => True
  | .malformed => True
  | .value q => q ≤ 0

instance : DecidablePred badFpsMeta := by
  intro m
  cases m <;> simp only [badFpsMeta] <;> infer_instance

/-- The part of the player state _on_master_media_status reads and
writes: the resolved fps and the poster-ready flag. -/
structure FpsState where
  fps : Option ℚ
  posterReady : Bool
deriving DecidableEq, Repr

/-- Source: load_original resets the poster-ready flag and the fps
before setting the new source. -/
def load_original (_st : FpsState) : FpsState :=
  { fps := none, posterReady := false }

/-- Source: _on_master_media_status. Returns early when the poster is
ready or the status is not LoadedMedia/BufferedMedia (modelled by the
loaded flag); resolves fps from metadata only while fps is None; a
metadata error propagates as a raised exception, leaving the state
untouched. The poster-frame scheduling is not part of this state. -/
def onMasterMediaStatus (st : FpsState) (loaded : Bool) (meta : FpsMeta) :
    Except String FpsState :=
  if st.posterReady then .ok st
  else if !loaded then .ok st
  else
    match st.fps with
    | some _ => .ok st
    | none =>
      match resolveFps meta with
      | .error e => .error e
      | .ok v => .ok { st with fps := some v }

/-- A concrete keyframe used to evaluate delete-nearest: one positive
point, one negative point, one rectangle. -/
def kfDeleteEx : Keyframe :=
  { frame_idx := 3, pos_clicks := [(1/2, 1/2, 1)],
    neg_clicks := [(9/10, 9/10, 1)],
    rects := [(1/10, 1/10, 2/10, 2/10, 1)] }

/-- A point entry whose x coordinate float() cannot parse. -/
def badPointEx : JPoint := .dict .bad (.ok (1/2)) none

/-- A keyframe entry holding the unparseable point. -/
def badEntryEx : JKeyframe := { frame_idx := 2, pos_clicks := [badPointEx] }

/-- A well-formed keyframe entry (object id absent). -/
def goodEntryEx : JKeyframe :=
  { frame_idx := 7, pos_clicks := [JPoint.dict (.ok (1/4)) (.ok (1/4)) none] }

/-- A record whose first entry is unparseable and whose second entry is
well formed. -/
def badRecordEx : JRecord := { keyframes := [badEntryEx, goodEntryEx] }

/-! ## Player state (videovanish.py, VideoPlayer and VideoView)

The state gathers the fields of VideoPlayer and of its VideoView that
the transport, preview and mode operations read and write. Raster
frames are an arbitrary type alpha; converting a stored frame to a
pixmap is modelled as always succeeding. Positions are milliseconds.
Text labels and repaint calls carry no state and are omitted. -/

/-- The view mode: which base layer is shown. -/
inductive Mode
  | original
  | infilled
deriving DecidableEq, Repr

/-- State of VideoPlayer plus the visibility, opacity and pixmap fields
of its VideoView layers. shownMaskFrame and shownInfillFrame record the
frame most recently pushed to the corresponding preview pixmap item. -/
structure PlayerState (α : Type) where
  origPlaying : Bool
  origPos : ℤ
  infillPlaying : Bool
  infillPos : ℤ
  maskPlaying : Bool
  maskPos : ℤ
  timerActive : Bool
  showMode : Mode
  origItemVisible : Bool
  infillItemVisible : Bool
  infillPreviewVisible : Bool
  maskItemVisible : Bool
  maskPreviewVisible : Bool
  maskOpacity : ℚ
  maskPreviewOpacity : ℚ
  maskPreviewFrames : Option (List α)
  maskPreviewStart : ℤ
  infillPreviewFrames : Option (List α)
  infillPreviewStart : ℤ
  shownMaskFrame : Option α
  shownInfillFrame : Option α
  lastFrameMs : ℤ
  lastFrameIdx : ℤ
  fps : Option ℚ
  sliderValue : ℤ
  sliderDown : Bool

namespace PlayerState

variable {α : Type}

/-- Source idiom: self dot last frame ms or player position (a zero
millisecond count is falsy in Python, so the player position is used
then). This is what the source treats as the last known master
position. -/
def masterKnownPos (s : PlayerState α) : ℤ :=
  if s.lastFrameMs = 0 then s.origPos else s.lastFrameMs

/-- The resolved fps, or zero while unresolved. The source conditions
(fps is not None and fps greater than 0) are exactly 0 < fpsOrZero, and
in their bodies fps equals fpsOrZero. -/
def fpsOrZero (s : PlayerState α) : ℚ := s.fps.getD 0

/-- Source: _current_frame_idx returns _last_frame_idx. -/
def currentFrameIdx (s : PlayerState α) : ℤ := s.lastFrameIdx

/-- Source condition for the file-backed infill follower being active:
show_mode is infilled and no infill preview frames are set. -/
def infillFileActive (s : PlayerState α) : Bool :=
  (s.showMode == Mode.infilled) && s.infillPreviewFrames.isNone

/-- Source condition for the file-backed mask follower being active:
the mask item is visible and no mask preview frames are set. -/
def maskFileActive (s : PlayerState α) : Bool :=
  s.maskItemVisible && s.maskPreviewFrames.isNone

/-- Source: _update_mask_preview_for_frame. Returns unchanged when no
(or an empty) preview list is stored; hides the preview layer when the
index falls outside the buffer range; otherwise shows the layer and
pushes the frame at index frameIdx minus start. -/
def updateMaskPreviewForFrame (s : PlayerState α) (frameIdx : ℤ) :
    PlayerState α :=
  match s.maskPreviewFrames with
  | none => s
  | some frames =>
    if frames.isEmpty then s
    else
      let i := frameIdx - s.maskPreviewStart
      if i < 0 ∨ (frames.length : ℤ) ≤ i then
        { s with maskPreviewVisible := false }
      else
        { s with maskPreviewVisible := true,
                 shownMaskFrame := frames[i.toNat]? }

/-- Source: _update_infill_preview_for_frame. Same lookup as the mask
preview, but only in infilled mode, acting on the infill preview
layer. -/
def updateInfillPreviewForFrame (s : PlayerState α) (frameIdx : ℤ) :
    PlayerState α :=
  match s.infillPreviewFrames with
  | none => s
  | some frames =>
    if frames.isEmpty then s
    else if s.showMode ≠ Mode.infilled then s
    else
      let i := frameIdx - s.infillPreviewStart
      if i < 0 ∨ (frames.length : ℤ) ≤ i then
        { s with infillPreviewVisible := false }
      else
        { s with infillPreviewVisible := true,
                 shownInfillFrame := frames[i.toNat]? }

/-- The follower-repositioning lines shared by _snap_all_to and seek:
set the file infill position when the file infill is active, then the
file mask position when the file mask is active. -/
def snapFollowers (s : PlayerState α) (pos : ℤ) : PlayerState α :=
  let s2 := if infillFileActive s then { s with infillPos := pos } else s
  if maskFileActive s2 then { s2 with maskPos := pos } else s2

/-- The frame-index refresh shared by _snap_all_to and seek: when fps is
known and positive, recompute the frame index from the millisecond
position (the overlay lookup this feeds carries no state here). -/
def refreshFrameIdx (s : PlayerState α) (pos : ℤ) : PlayerState α :=
  if 0 < fpsOrZero s then
    { s with lastFrameIdx := ms_to_frame pos (fpsOrZero s) }
  else s

/-- The two preview refresh calls shared by _snap_all_to, seek and the
frame callback: both previews are updated for the current frame
index. -/
def refreshPreviews (s : PlayerState α) : PlayerState α :=
  let s5 := updateMaskPreviewForFrame s s.lastFrameIdx
  updateInfillPreviewForFrame s5 s5.lastFrameIdx

/-- Source: _snap_all_to: reposition the active non-preview followers
(and the master if snapOrig), refresh the frame index and overlay when
fps is known, refresh both previews, and update the slider. -/
def snapAllTo (s : PlayerState α) (pos : ℤ) (snapOrig : Bool) :
    PlayerState α :=
  let s1 := if snapOrig then { s with origPos := pos } else s
  let s4 := refreshFrameIdx (snapFollowers s1 pos) pos
  { refreshPreviews s4 with sliderValue := pos }

/-- Source: pause_all: pause all three players, stop the resync timer,
then snap everything to the last known master position. -/
def pause_all (s : PlayerState α) : PlayerState α :=
  let s1 := { s with origPlaying := false, infillPlaying := false,
                     maskPlaying := false, timerActive := false }
  snapAllTo s1 (masterKnownPos s1) false

/-- Source: seek(pos_ms): reposition the master and the active
non-preview followers, record the position, refresh the slider (unless
the user is dragging it), recompute the frame index when fps is known,
refresh both previews, and, when not playing, perform an exact snap. -/
def seek (s : PlayerState α) (pos : ℤ) : PlayerState α :=
  let s3 := snapFollowers { s with origPos := pos } pos
  let s4 := { s3 with lastFrameMs := pos }
  let s5 := if s4.sliderDown then s4 else { s4 with sliderValue := pos }
  let s8 := refreshPreviews (refreshFrameIdx s5 pos)
  if s8.origPlaying then s8 else snapAllTo s8 pos false

/-- Source: stop: the whole body is seek(0). -/
def stop (s : PlayerState α) : PlayerState α := seek s 0

/-- Source: play_all: start the master at the last known position, play
each follower only while it is the active source for its layer, pause
it otherwise, and start the resync timer. -/
def play_all (s : PlayerState α) : PlayerState α :=
  let cur := masterKnownPos s
  let s1 := { s with origPos := cur, origPlaying := true }
  let s2 :=
    if infillFileActive s1 then
      { s1 with infillPos := cur, infillPlaying := true }
    else { s1 with infillPlaying := false }
  let s3 :=
    if maskFileActive s2 then
      { s2 with maskPos := cur, maskPlaying := true }
    else { s2 with maskPlaying := false }
  { s3 with timerActive := true }

/-- Source: VideoView.set_base_visible. -/
def setBaseVisible (s : PlayerState α) (which : Mode)
    (usePreview : Bool) : PlayerState α :=
  if which = Mode.original then
    { s with origItemVisible := true, infillItemVisible := false,
             infillPreviewVisible := false }
  else
    { s with origItemVisible := false,
             infillPreviewVisible := usePreview,
             infillItemVisible := !usePreview }

/-- Source: VideoPlayer.set_mode: no-op when the mode is unchanged, else
pause, switch the base layer (preferring the infill preview when one is
set), then resume if it was playing, else snap. -/
def set_mode (s : PlayerState α) (mode : Mode) : PlayerState α :=
  if s.showMode = mode then s
  else
    let wasPlaying := s.origPlaying
    let s1 := pause_all s
    let s2 := { s1 with showMode := mode }
    let usePreview :=
      (mode == Mode.infilled) && s2.infillPreviewFrames.isSome
    let s3 := setBaseVisible s2 mode usePreview
    if wasPlaying then play_all s3
    else snapAllTo s3 (masterKnownPos s3) false

/-- Source: set_mask_opacity(value): clamp value/100 into the unit
interval and apply it to both the file mask layer and the preview
layer. -/
def set_mask_opacity (s : PlayerState α) (value : ℤ) : PlayerState α :=
  let alpha := max 0 (min 1 ((value : ℚ) / 100))
  { s with maskOpacity := alpha, maskPreviewOpacity := alpha }

/-- Source: clear_mask_preview. -/
def clear_mask_preview (s : PlayerState α) : PlayerState α :=
  { s with maskPreviewFrames := none, maskPreviewStart := 0,
           maskPreviewVisible := false }

/-- The start frame set_mask_preview_frames resolves: the given value,
else the current frame index when fps is known, else 0. -/
def resolvedStart (s : PlayerState α) (startFrame : Option ℤ) : ℤ :=
  match startFrame with
  | some v => v
  | none => if 0 < fpsOrZero s then currentFrameIdx s else 0

/-- Source: set_mask_preview_frames(frames, start_frame): empty frames
clear the preview; otherwise the start defaults to the current frame
index when fps is known (else 0), the frames are stored, and then -
under a condition that reads mask visibility or True, hence always -
the file mask layer is hidden, the preview layer is made visible, its
opacity is reset to 0.5, and the per-frame update runs for the current
frame index. -/
def set_mask_preview_frames (s : PlayerState α) (frames : List α)
    (startFrame : Option ℤ) : PlayerState α :=
  if frames.isEmpty then clear_mask_preview s
  else
    let start := resolvedStart s startFrame
    let s1 := { s with maskPreviewFrames := some frames,
                       maskPreviewStart := start }
    let s2 := { s1 with maskItemVisible := false,
                        maskPreviewVisible := true,
                        maskPreviewOpacity := 1/2 }
    updateMaskPreviewForFrame s2 (currentFrameIdx s2)

end PlayerState

/-! ## Main window (videovanish.py, MainWindow.set_mode) -/

/-- State of MainWindow around the mode switch: the embedded player,
whether an infilled video path is set (Python truthiness of the path),
whether a warning dialog was shown, and the two radio buttons. -/
structure MainState (α : Type) where
  player : PlayerState α
  infilledVideoPathSet : Bool
  warned : Bool
  rbOriginalChecked : Bool
  rbInfilledChecked : Bool

/-- Source: MainWindow.set_mode: switching to infilled with no infilled
file and no infill preview frames shows a warning and re-checks the
Original radio button without touching the player; otherwise the player
mode switch runs. Mode strings other than the two valid ones are
rejected before this point and are excluded by the Mode type. -/
def mwSetMode {α : Type} (m : MainState α) (mode : Mode) : MainState α :=
  if mode = Mode.infilled ∧ m.infilledVideoPathSet = false ∧
      m.player.infillPreviewFrames.isNone = true then
    { m with warned := true, rbOriginalChecked := true,
             rbInfilledChecked := false }
  else
    { m with player := m.player.set_mode mode }

/-- A concrete playing state: master at 2000 ms, resync timer running,
original mode, no previews, fps 30. -/
def playingStateEx : PlayerState ℕ :=
  { origPlaying := true, origPos := 2000, infillPlaying := false,
    infillPos := 2000, maskPlaying := false, maskPos := 0,
    timerActive := true, showMode := Mode.original,
    origItemVisible := true, infillItemVisible := false,
    infillPreviewVisible := false, maskItemVisible := false,
    maskPreviewVisible := false, maskOpacity := 2/5,
    maskPreviewOpacity := 2/5, maskPreviewFrames := none,
    maskPreviewStart := 0, infillPreviewFrames := none,
    infillPreviewStart := 0, shownMaskFrame := none,
    shownInfillFrame := none, lastFrameMs := 2000, lastFrameIdx := 60,
    fps := some 30, sliderValue := 2000, sliderDown := false }

/-- A concrete paused state holding a five-frame mask preview buffer
that starts at frame 100. -/
def bufferStateEx : PlayerState ℕ :=
  { origPlaying := false, origPos := 0, infillPlaying := false,
    infillPos := 0, maskPlaying := false, maskPos := 0,
    timerActive := false, showMode := Mode.original,
    origItemVisible := true, infillItemVisible := false,
    infillPreviewVisible := false, maskItemVisible := false,
    maskPreviewVisible := true, maskOpacity := 2/5,
    maskPreviewOpacity := 1/2,
    maskPreviewFrames := some [10, 20, 30, 40, 50],
    maskPreviewStart := 100, infillPreviewFrames := none,
    infillPreviewStart := 0, shownMaskFrame := none,
    shownInfillFrame := none, lastFrameMs := 0, lastFrameIdx := 0,
    fps := some 30, sliderValue := 0, sliderDown := false }

/-- A concrete paused state at frame 0 with the file mask visible and
no preview set. -/
def idleStateEx : PlayerState ℕ :=
  { origPlaying := false, origPos := 500, infillPlaying := false,
    infillPos := 0, maskPlaying := false, maskPos := 0,
    timerActive := false, showMode := Mode.original,
    origItemVisible := true, infillItemVisible := false,
    infillPreviewVisible := false, maskItemVisible := true,
    maskPreviewVisible := false, maskOpacity := 2/5,
    maskPreviewOpacity := 2/5, maskPreviewFrames := none,
    maskPreviewStart := 0, infillPreviewFrames := none,
    infillPreviewStart := 0, shownMaskFrame := none,
    shownInfillFrame := none, lastFrameMs := 0, lastFrameIdx := 0,
    fps := some 30, sliderValue := 0, sliderDown := false }

/-- A concrete paused state in infilled mode with the mask layer
visible, no previews, and a known position of 1234 ms. -/
def snapStateEx : PlayerState ℕ :=
  { origPlaying := false, origPos := 77, infillPlaying := false,
    infillPos := 0, maskPlaying := false, maskPos := 0,
    timerActive := false, showMode := Mode.infilled,
    origItemVisible := false, infillItemVisible := true,
    infillPreviewVisible := false, maskItemVisible := true,
    maskPreviewVisible := false, maskOpacity := 2/5,
    maskPreviewOpacity := 2/5, maskPreviewFrames := none,
    maskPreviewStart := 0, infillPreviewFrames := none,
    infillPreviewStart := 0, shownMaskFrame := none,
    shownInfillFrame := none, lastFrameMs := 1234, lastFrameIdx := 37,
    fps := some 30, sliderValue := 1234, sliderDown := false }

/-- A concrete main-window state with no infilled video and no infill
preview, in original mode. -/
def mainStateEx : MainState ℕ :=
  { player := idleStateEx, infilledVideoPathSet := false,
    warned := false, rbOriginalChecked := true,
    rbInfilledChecked := false }

/-! ## Theorems and supporting lemmas -/

theorem pyRound_sub_abs_le (q : ℚ) : |(pyRound q : ℚ) - q| ≤ 1/2 := by
  have h0 : (⌊q⌋ : ℚ) ≤ q := Int.floor_le q
  have h1 : q < (⌊q⌋ : ℚ) + 1 := Int.lt_floor_add_one q
  unfold pyRound
  split_ifs with hA hB hC
  · rw [abs_le]; constructor <;> linarith
  · rw [abs_le]; constructor <;> push_cast <;> linarith
  · rw [abs_le]; constructor <;> linarith
  · rw [abs_le]; constructor <;> push_cast <;> linarith

/-- C1 counterexample: with fps = 10000 and i = 3 the round trip returns
frame 0, which is off by 3 frames, more than the claimed tolerance of 1.
frame_to_ms(3, 10000) = round(0.3) = 0 and ms_to_frame(0, 10000) = 0. -/
theorem c1_round_trip_counterexample :
    ¬ (|ms_to_frame (frame_to_ms 3 10000) 10000 - 3| ≤ 1) := by
  norm_num [ms_to_frame, frame_to_ms, pyRound]

/-- C1 amended: for every rational fps with 0 < fps ≤ 1000 and every
integer i ≥ 0, ms_to_frame(frame_to_ms(i, fps), fps) is within 1 frame
of i. The bound fps ≤ 1000 is needed because timestamps are whole
milliseconds: above 1000 fps, rounding to a millisecond can lose more
than one frame. -/
theorem c1_round_trip (fps : ℚ) (i : ℤ) (_hi : 0 ≤ i) (hpos : 0 < fps)
    (hle : fps ≤ 1000) :
    |ms_to_frame (frame_to_ms i fps) fps - i| ≤ 1 := by
  -- the nonnegativity of i is part of the claim but not needed for the bound
  have hfps : fps ≠ 0 := ne_of_gt hpos
  have h1 : |(frame_to_ms i fps : ℚ) - (i : ℚ) / fps * 1000| ≤ 1/2 := by
    simpa [frame_to_ms] using pyRound_sub_abs_le ((i : ℚ) / fps * 1000)
  have hkey : |(frame_to_ms i fps : ℚ) / 1000 * fps - (i : ℚ)| ≤ 1/2 := by
    have hrw : (frame_to_ms i fps : ℚ) / 1000 * fps - (i : ℚ) =
        ((frame_to_ms i fps : ℚ) - (i : ℚ) / fps * 1000) * (fps / 1000) := by
      field_simp
      ring
    rw [hrw, abs_mul]
    have hb : |fps / 1000| ≤ 1 := by
      rw [abs_of_pos (by positivity)]
      rw [div_le_one (by norm_num)]
      exact hle
    calc |(frame_to_ms i fps : ℚ) - (i : ℚ) / fps * 1000| * |fps / 1000|
        ≤ (1/2) * 1 :=
          mul_le_mul h1 hb (abs_nonneg _) (by norm_num)
      _ = 1/2 := by norm_num
  have h2 : |(ms_to_frame (frame_to_ms i fps) fps : ℚ) -
      (frame_to_ms i fps : ℚ) / 1000 * fps| ≤ 1/2 := by
    simpa [ms_to_frame] using
      pyRound_sub_abs_le ((frame_to_ms i fps : ℚ) / 1000 * fps)
  have hq : |(ms_to_frame (frame_to_ms i fps) fps : ℚ) - (i : ℚ)| ≤ 1 := by
    calc |(ms_to_frame (frame_to_ms i fps) fps : ℚ) - (i : ℚ)|
        ≤ |(ms_to_frame (frame_to_ms i fps) fps : ℚ) -
            (frame_to_ms i fps : ℚ) / 1000 * fps| +
          |(frame_to_ms i fps : ℚ) / 1000 * fps - (i : ℚ)| := by
          have := abs_sub_le ((ms_to_frame (frame_to_ms i fps) fps : ℚ))
            ((frame_to_ms i fps : ℚ) / 1000 * fps) ((i : ℚ))
          exact this
      _ ≤ 1/2 + 1/2 := add_le_add h2 hkey
      _ = 1 := by norm_num
  exact_mod_cast hq

/-- C1 witness: the amended round trip holds concretely at fps = 30 and
i = 45. -/
theorem c1_round_trip_witness :
    (0 : ℤ) ≤ 45 ∧ (0 : ℚ) < 30 ∧ (30 : ℚ) ≤ 1000 ∧
      |ms_to_frame (frame_to_ms 45 30) 30 - 45| ≤ 1 :=
  ⟨by decide, by decide, by decide,
    c1_round_trip 30 45 (by decide) (by decide) (by decide)⟩

theorem popFirst_eq_none_iff {α : Type} (f : α → Bool) (l : List α) :
    popFirst f l = none ↔ ∀ x ∈ l, f x = false := by
  induction l with
  | nil => simp [popFirst]
  | cons x xs ih =>
    by_cases hx : f x = true
    · simp [popFirst, hx]
    · have hx2 : f x = false := by
        cases h2 : f x
        · rfl
        · exact absurd h2 hx
      simp [popFirst, hx2, Option.map_eq_none', ih]

theorem popFirst_some_facts {α : Type} (f : α → Bool) :
    ∀ (l l2 : List α), popFirst f l = some l2 →
      l2.length + 1 = l.length ∧ l2.Sublist l ∧
        l2 = l.eraseIdx (l.findIdx f) := by
  intro l
  induction l with
  | nil => intro l2 h; simp [popFirst] at h
  | cons x xs ih =>
    intro l2 h
    by_cases hx : f x = true
    · simp only [popFirst, if_pos hx] at h
      injection h with h2
      subst h2
      refine ⟨rfl, List.Sublist.cons x (List.Sublist.refl _), ?_⟩
      simp [List.findIdx_cons, hx]
    · simp only [popFirst, if_neg hx, Option.map_eq_some'] at h
      obtain ⟨l3, h3, rfl⟩ := h
      obtain ⟨hlen, hsub, herase⟩ := ih l3 h3
      refine ⟨by simpa using hlen, List.Sublist.cons₂ x hsub, ?_⟩
      have hfx : f x = false := by
        cases hfx2 : f x
        · rfl
        · exact absurd hfx2 hx
      simp [List.findIdx_cons, hfx, herase]

/-- C3 counterexample: importing a record whose single keyframe entry
holds zero points and zero rectangles leaves an empty Keyframe in the
store, so after this import the keyframe is present while holding zero
annotations. -/
theorem c3_empty_import_counterexample :
    load_from_json_obj { keyframes := [{ frame_idx := 5 }] } =
      ([{ frame_idx := 5 }], none) ∧
    ({ frame_idx := 5 } : Keyframe).pos_clicks = [] ∧
    ({ frame_idx := 5 } : Keyframe).neg_clicks = [] ∧
    ({ frame_idx := 5 } : Keyframe).rects = [] :=
  ⟨rfl, rfl, rfl, rfl⟩

theorem storeInvariant_pruneIfEmpty (kf : Keyframe) :
    storeInvariant (pruneIfEmpty kf) := by
  unfold pruneIfEmpty
  split_ifs with h
  · trivial
  · simp only [storeInvariant]
    rintro ⟨h1, h2, h3⟩
    exact h (by simp [h1, h2, h3])

theorem applyOp_invariant (fi : ℤ) (st : Option Keyframe) (op : AnnOp)
    (h : storeInvariant st) : storeInvariant (applyOp fi st op) := by
  cases op with
  | addPos nx ny obj => simp [applyOp, storeInvariant]
  | addNeg nx ny obj => simp [applyOp, storeInvariant]
  | addRect nx ny nw nh obj => simp [applyOp, storeInvariant]
  | deleteAt nx ny W H =>
    cases st with
    | none => simpa [applyOp] using h
    | some kf =>
      simp only [applyOp]
      cases hp : popFirst (nearPointB nx ny W H) kf.pos_clicks with
      | some ps => exact storeInvariant_pruneIfEmpty _
      | none =>
        cases hn : popFirst (nearPointB nx ny W H) kf.neg_clicks with
        | some ns => exact storeInvariant_pruneIfEmpty _
        | none =>
          cases hr : popFirst (nearRectEdgeB nx ny W H) kf.rects with
          | some rs => exact storeInvariant_pruneIfEmpty _
          | none => exact h

/-- C3 amended: for every sequence of add and delete operations applied
at a single frame index, a Keyframe present in the store holds at least
one point or rectangle (a Keyframe becoming empty is removed
immediately); the absent store trivially holds zero annotations. On
import, however, a record entry with zero points and zero rectangles is
inserted as an empty Keyframe and remains in the store. -/
theorem c3_store_invariant (fi : ℤ) (ops : List AnnOp) :
    storeInvariant (ops.foldl (applyOp fi) none) := by
  have general : ∀ (st : Option Keyframe), storeInvariant st →
      storeInvariant (ops.foldl (applyOp fi) st) := by
    induction ops with
    | nil => intro st h; exact h
    | cons op rest ih =>
      intro st h
      exact ih _ (applyOp_invariant fi st op h)
  exact general none trivial

/-- C7: delete-nearest removes at most one annotation, searching
positive points first, then negative points, then rectangle edges, and
removes the first match of the first nonempty category; when nothing is
within the pixel threshold the keyframe is unchanged. -/
theorem c7_delete_nearest (kf : Keyframe) (nx ny W H : ℚ) :
    (deleteAtKf kf nx ny W H = kf ∨
      totalAnns (deleteAtKf kf nx ny W H) + 1 = totalAnns kf) ∧
    ((deleteAtKf kf nx ny W H).pos_clicks.Sublist kf.pos_clicks ∧
     (deleteAtKf kf nx ny W H).neg_clicks.Sublist kf.neg_clicks ∧
     (deleteAtKf kf nx ny W H).rects.Sublist kf.rects) ∧
    ((∃ p ∈ kf.pos_clicks, nearPointB nx ny W H p = true) →
      (deleteAtKf kf nx ny W H).neg_clicks = kf.neg_clicks ∧
      (deleteAtKf kf nx ny W H).rects = kf.rects ∧
      (deleteAtKf kf nx ny W H).pos_clicks =
        kf.pos_clicks.eraseIdx
          (kf.pos_clicks.findIdx (nearPointB nx ny W H))) ∧
    ((∀ p ∈ kf.pos_clicks, nearPointB nx ny W H p = false) →
     (∃ p ∈ kf.neg_clicks, nearPointB nx ny W H p = true) →
      (deleteAtKf kf nx ny W H).pos_clicks = kf.pos_clicks ∧
      (deleteAtKf kf nx ny W H).rects = kf.rects ∧
      (deleteAtKf kf nx ny W H).neg_clicks =
        kf.neg_clicks.eraseIdx
          (kf.neg_clicks.findIdx (nearPointB nx ny W H))) ∧
    ((∀ p ∈ kf.pos_clicks, nearPointB nx ny W H p = false) →
     (∀ p ∈ kf.neg_clicks, nearPointB nx ny W H p = false) →
     (∃ r ∈ kf.rects, nearRectEdgeB nx ny W H r = true) →
      (deleteAtKf kf nx ny W H).pos_clicks = kf.pos_clicks ∧
      (deleteAtKf kf nx ny W H).neg_clicks = kf.neg_clicks ∧
      (deleteAtKf kf nx ny W H).rects =
        kf.rects.eraseIdx
          (kf.rects.findIdx (nearRectEdgeB nx ny W H))) ∧
    ((∀ p ∈ kf.pos_clicks, nearPointB nx ny W H p = false) →
     (∀ p ∈ kf.neg_clicks, nearPointB nx ny W H p = false) →
     (∀ r ∈ kf.rects, nearRectEdgeB nx ny W H r = false) →
      deleteAtKf kf nx ny W H = kf) := by
  cases hp : popFirst (nearPointB nx ny W H) kf.pos_clicks with
  | some ps =>
    obtain ⟨hlen, hsub, herase⟩ := popFirst_some_facts _ _ _ hp
    have hres : deleteAtKf kf nx ny W H = { kf with pos_clicks := ps } := by
      simp [deleteAtKf, hp]
    refine ⟨Or.inr ?_, ⟨?_, ?_, ?_⟩, fun _ => ⟨?_, ?_, ?_⟩, fun hall _ => ?_,
      fun hall _ _ => ?_, fun hall _ _ => ?_⟩
    · simp only [hres, totalAnns]; omega
    · simpa [hres] using hsub
    · simp [hres]
    · simp [hres]
    · simp [hres]
    · simp [hres]
    · simp only [hres]; exact herase
    all_goals
      rw [(popFirst_eq_none_iff _ _).mpr hall] at hp
      exact absurd hp (by simp)
  | none =>
    have hallp : ∀ p ∈ kf.pos_clicks, nearPointB nx ny W H p = false :=
      (popFirst_eq_none_iff _ _).mp hp
    cases hn : popFirst (nearPointB nx ny W H) kf.neg_clicks with
    | some ns =>
      obtain ⟨hlen, hsub, herase⟩ := popFirst_some_facts _ _ _ hn
      have hres : deleteAtKf kf nx ny W H = { kf with neg_clicks := ns } := by
        simp [deleteAtKf, hp, hn]
      refine ⟨Or.inr ?_, ⟨?_, ?_, ?_⟩, fun hex => ?_, fun _ _ => ⟨?_, ?_, ?_⟩,
        fun _ hall _ => ?_, fun _ hall _ => ?_⟩
      · simp only [hres, totalAnns]; omega
      · simp [hres]
      · simpa [hres] using hsub
      · simp [hres]
      · obtain ⟨p, hmem, htrue⟩ := hex
        exact absurd (hallp p hmem) (by simp [htrue])
      · simp [hres]
      · simp [hres]
      · simp only [hres]; exact herase
      all_goals
        rw [(popFirst_eq_none_iff _ _).mpr hall] at hn
        exact absurd hn (by simp)
    | none =>
      have halln : ∀ p ∈ kf.neg_clicks, nearPointB nx ny W H p = false :=
        (popFirst_eq_none_iff _ _).mp hn
      cases hr : popFirst (nearRectEdgeB nx ny W H) kf.rects with
      | some rs =>
        obtain ⟨hlen, hsub, herase⟩ := popFirst_some_facts _ _ _ hr
        have hres : deleteAtKf kf nx ny W H = { kf with rects := rs } := by
          simp [deleteAtKf, hp, hn, hr]
        refine ⟨Or.inr ?_, ⟨?_, ?_, ?_⟩, fun hex => ?_, fun _ hex => ?_,
          fun _ _ _ => ⟨?_, ?_, ?_⟩, fun _ _ hall => ?_⟩
        · simp only [hres, totalAnns]; omega
        · simp [hres]
        · simp [hres]
        · simpa [hres] using hsub
        · obtain ⟨p, hmem, htrue⟩ := hex
          exact absurd (hallp p hmem) (by simp [htrue])
        · obtain ⟨p, hmem, htrue⟩ := hex
          exact absurd (halln p hmem) (by simp [htrue])
        · simp [hres]
        · simp [hres]
        · simp only [hres]; exact herase
        · rw [(popFirst_eq_none_iff _ _).mpr hall] at hr
          exact absurd hr (by simp)
      | none =>
        have hallr : ∀ r ∈ kf.rects, nearRectEdgeB nx ny W H r = false :=
          (popFirst_eq_none_iff _ _).mp hr
        have hres : deleteAtKf kf nx ny W H = kf := by
          simp [deleteAtKf, hp, hn, hr]
        refine ⟨Or.inl hres, ⟨?_, ?_, ?_⟩, fun hex => ?_, fun _ hex => ?_,
          fun _ _ hex => ?_, fun _ _ _ => hres⟩
        · simp [hres]
        · simp [hres]
        · simp [hres]
        · obtain ⟨p, hmem, htrue⟩ := hex
          exact absurd (hallp p hmem) (by simp [htrue])
        · obtain ⟨p, hmem, htrue⟩ := hex
          exact absurd (halln p hmem) (by simp [htrue])
        · obtain ⟨r, hmem, htrue⟩ := hex
          exact absurd (hallr r hmem) (by simp [htrue])

/-- C7 witness: a keyframe holding one positive point at (0.5, 0.5), one
negative point and one rectangle; deleting at the same location in a
100 by 100 display removes exactly the positive point. -/
theorem c7_delete_nearest_witness :
    (deleteAtKf kfDeleteEx (1/2) (1/2) 100 100).pos_clicks = [] ∧
    (deleteAtKf kfDeleteEx (1/2) (1/2) 100 100).neg_clicks =
      [(9/10, 9/10, 1)] ∧
    (deleteAtKf kfDeleteEx (1/2) (1/2) 100 100).rects =
      [(1/10, 1/10, 2/10, 2/10, 1)] := by
  have hf : nearPointB (1/2) (1/2) 100 100 ((1/2 : ℚ), (1/2 : ℚ), (1 : ℤ))
      = true := by
    simp only [nearPointB, decide_eq_true_eq]
    norm_num
  have h := (c7_delete_nearest kfDeleteEx (1/2) (1/2) 100 100).2.2.1
    ⟨(1/2, 1/2, 1), by simp [kfDeleteEx], hf⟩
  obtain ⟨hneg, hrects, hpos⟩ := h
  refine ⟨?_, ?_, ?_⟩
  · rw [hpos]
    have hidx : List.findIdx (nearPointB (1/2) (1/2) 100 100)
        kfDeleteEx.pos_clicks = 0 := by
      simp only [kfDeleteEx, List.findIdx_cons, hf, cond_true]
    rw [hidx]
    rfl
  · exact hneg
  · exact hrects

/-- C2: with the poster not yet ready and fps unresolved, a loaded-media
status raises exactly when the metadata does not yield a positive
numeric frame rate (absent, not convertible, or nonpositive), leaving
fps unset; a positive numeric rate is accepted and stored; and once fps
is set, any further status event leaves the state unchanged, so fps is
set exactly once per loaded master. -/
theorem c2_fps_resolution (st : FpsState) (meta : FpsMeta)
    (hposter : st.posterReady = false) (hfps : st.fps = none) :
    ((∃ e, onMasterMediaStatus st true meta = .error e) ↔ badFpsMeta meta) ∧
    (∀ q : ℚ, 0 < q →
      onMasterMediaStatus st true (.value q) =
        .ok { st with fps := some q }) ∧
    (∀ (st2 : FpsState) (loaded : Bool) (meta2 : FpsMeta) (v : ℚ),
      st2.fps = some v →
      onMasterMediaStatus st2 loaded meta2 = .ok st2) := by
  refine ⟨?_, ?_, ?_⟩
  · cases meta with
    | absent =>
      simp [onMasterMediaStatus, hposter, hfps, resolveFps, badFpsMeta]
    | malformed =>
      simp [onMasterMediaStatus, hposter, hfps, resolveFps, badFpsMeta]
    | value q =>
      by_cases hq : q ≤ 0
      · simp [onMasterMediaStatus, hposter, hfps, resolveFps, badFpsMeta, hq]
      · simp [onMasterMediaStatus, hposter, hfps, resolveFps, badFpsMeta, hq]
  · intro q hq
    simp [onMasterMediaStatus, hposter, hfps, resolveFps, not_le.mpr hq]
  · intro st2 loaded meta2 v h2
    unfold onMasterMediaStatus
    split_ifs <;> simp [h2]

/-- C2 witness: concretely, absent metadata on a fresh load raises and a
frame rate of 30 is accepted. -/
theorem c2_fps_resolution_witness :
    ((∃ e, onMasterMediaStatus ⟨none, false⟩ true .absent = .error e) ↔
      badFpsMeta .absent) ∧
    onMasterMediaStatus ⟨none, false⟩ true (.value 30) =
      .ok ⟨some 30, false⟩ :=
  ⟨(c2_fps_resolution ⟨none, false⟩ .absent rfl rfl).1,
   (c2_fps_resolution ⟨none, false⟩ (.value 30) rfl rfl).2.1 30 (by norm_num)⟩

/-- C9 counterexample: a record whose first point entry has an
unparseable x coordinate aborts the whole import: nothing is imported,
an exception escapes, and in particular the well-formed second entry
(which parses to a keyframe at frame 7) is not imported, contrary to the
claim that the remaining entries are still imported. -/
theorem c9_abort_counterexample :
    (load_from_json_obj badRecordEx).1 = [] ∧
    (load_from_json_obj badRecordEx).2.isSome = true ∧
    parseKeyframe goodEntryEx =
      .ok { frame_idx := 7, pos_clicks := [(1/4, 1/4, 1)] } :=
  ⟨rfl, rfl, rfl⟩

/-- C9 amended: a point or rectangle entry whose object id is absent is
imported with object id defaulted to 1; an entry whose coordinates
cannot be parsed raises an exception that aborts the import at that
entry (the store was cleared first, and entries from the failing one on
are not imported). -/
theorem c9_import_parsing (x y w h : ℚ) (e : JKeyframe)
    (rest : List JKeyframe) (msg : String)
    (hbad : parseKeyframe e = .error msg) :
    parsePoint (.dict (.ok x) (.ok y) none) = .ok (x, y, 1) ∧
    parseRect (.dict (.ok x) (.ok y) (.ok w) (.ok h) none) =
      .ok (x, y, w, h, 1) ∧
    load_from_json_obj { keyframes := e :: rest } = ([], some msg) := by
  refine ⟨rfl, rfl, ?_⟩
  simp [load_from_json_obj, loadEntries, hbad]

/-- C9 witness: the default object id and the aborting import evaluated
on concrete entries. -/
theorem c9_import_parsing_witness :
    parsePoint (JPoint.dict (.ok (3/4)) (.ok (1/4)) none) =
      .ok (3/4, 1/4, 1) ∧
    load_from_json_obj badRecordEx =
      ([], some "could not convert value to float") := by
  have h := c9_import_parsing (3/4) (1/4) (1/2) (1/2) badEntryEx
    [goodEntryEx] "could not convert value to float" rfl
  exact ⟨h.1, h.2.2⟩

section PlayerTheorems

variable {α : Type}

/-- The preview updates touch only the preview visibility and pixmap
fields: every other field is preserved. Stated for the fields the
transport proofs read. -/
theorem updateMaskPreview_proj (s : PlayerState α) (i : ℤ) :
    (s.updateMaskPreviewForFrame i).origPlaying = s.origPlaying ∧
    (s.updateMaskPreviewForFrame i).timerActive = s.timerActive ∧
    (s.updateMaskPreviewForFrame i).lastFrameMs = s.lastFrameMs ∧
    (s.updateMaskPreviewForFrame i).lastFrameIdx = s.lastFrameIdx ∧
    (s.updateMaskPreviewForFrame i).infillPos = s.infillPos ∧
    (s.updateMaskPreviewForFrame i).maskPos = s.maskPos ∧
    (s.updateMaskPreviewForFrame i).origPos = s.origPos ∧
    (s.updateMaskPreviewForFrame i).maskItemVisible = s.maskItemVisible ∧
    (s.updateMaskPreviewForFrame i).maskOpacity = s.maskOpacity ∧
    (s.updateMaskPreviewForFrame i).maskPreviewOpacity =
      s.maskPreviewOpacity ∧
    (s.updateMaskPreviewForFrame i).maskPreviewFrames =
      s.maskPreviewFrames ∧
    (s.updateMaskPreviewForFrame i).maskPreviewStart =
      s.maskPreviewStart ∧
    (s.updateMaskPreviewForFrame i).infillPreviewFrames =
      s.infillPreviewFrames ∧
    (s.updateMaskPreviewForFrame i).infillPreviewVisible =
      s.infillPreviewVisible ∧
    (s.updateMaskPreviewForFrame i).infillPreviewStart =
      s.infillPreviewStart ∧
    (s.updateMaskPreviewForFrame i).shownInfillFrame =
      s.shownInfillFrame ∧
    (s.updateMaskPreviewForFrame i).fps = s.fps ∧
    (s.updateMaskPreviewForFrame i).sliderValue = s.sliderValue ∧
    (s.updateMaskPreviewForFrame i).sliderDown = s.sliderDown ∧
    (s.updateMaskPreviewForFrame i).showMode = s.showMode := by
  unfold PlayerState.updateMaskPreviewForFrame
  rcases h : s.maskPreviewFrames with _ | frames <;>
    simp [h] <;> split_ifs <;> simp [h]

theorem updateInfillPreview_proj (s : PlayerState α) (i : ℤ) :
    (s.updateInfillPreviewForFrame i).origPlaying = s.origPlaying ∧
    (s.updateInfillPreviewForFrame i).timerActive = s.timerActive ∧
    (s.updateInfillPreviewForFrame i).lastFrameMs = s.lastFrameMs ∧
    (s.updateInfillPreviewForFrame i).lastFrameIdx = s.lastFrameIdx ∧
    (s.updateInfillPreviewForFrame i).infillPos = s.infillPos ∧
    (s.updateInfillPreviewForFrame i).maskPos = s.maskPos ∧
    (s.updateInfillPreviewForFrame i).origPos = s.origPos ∧
    (s.updateInfillPreviewForFrame i).maskItemVisible =
      s.maskItemVisible ∧
    (s.updateInfillPreviewForFrame i).maskOpacity = s.maskOpacity ∧
    (s.updateInfillPreviewForFrame i).maskPreviewOpacity =
      s.maskPreviewOpacity ∧
    (s.updateInfillPreviewForFrame i).maskPreviewFrames =
      s.maskPreviewFrames ∧
    (s.updateInfillPreviewForFrame i).maskPreviewStart =
      s.maskPreviewStart ∧
    (s.updateInfillPreviewForFrame i).maskPreviewVisible =
      s.maskPreviewVisible ∧
    (s.updateInfillPreviewForFrame i).shownMaskFrame =
      s.shownMaskFrame ∧
    (s.updateInfillPreviewForFrame i).infillPreviewFrames =
      s.infillPreviewFrames ∧
    (s.updateInfillPreviewForFrame i).infillPreviewStart =
      s.infillPreviewStart ∧
    (s.updateInfillPreviewForFrame i).fps = s.fps ∧
    (s.updateInfillPreviewForFrame i).sliderValue = s.sliderValue ∧
    (s.updateInfillPreviewForFrame i).sliderDown = s.sliderDown ∧
    (s.updateInfillPreviewForFrame i).showMode = s.showMode := by
  unfold PlayerState.updateInfillPreviewForFrame
  rcases h : s.infillPreviewFrames with _ | frames <;>
    simp [h] <;> split_ifs <;> simp [h]

theorem snapFollowers_proj (s : PlayerState α) (pos : ℤ) :
    (s.snapFollowers pos).origPlaying = s.origPlaying ∧
    (s.snapFollowers pos).timerActive = s.timerActive ∧
    (s.snapFollowers pos).lastFrameMs = s.lastFrameMs ∧
    (s.snapFollowers pos).lastFrameIdx = s.lastFrameIdx ∧
    (s.snapFollowers pos).origPos = s.origPos ∧
    (s.snapFollowers pos).sliderValue = s.sliderValue ∧
    (s.snapFollowers pos).sliderDown = s.sliderDown ∧
    (s.snapFollowers pos).fps = s.fps ∧
    (s.snapFollowers pos).showMode = s.showMode ∧
    (s.snapFollowers pos).maskItemVisible = s.maskItemVisible ∧
    (s.snapFollowers pos).maskOpacity = s.maskOpacity ∧
    (s.snapFollowers pos).maskPreviewOpacity = s.maskPreviewOpacity ∧
    (s.snapFollowers pos).maskPreviewFrames = s.maskPreviewFrames ∧
    (s.snapFollowers pos).maskPreviewStart = s.maskPreviewStart ∧
    (s.snapFollowers pos).maskPreviewVisible = s.maskPreviewVisible ∧
    (s.snapFollowers pos).infillPreviewFrames = s.infillPreviewFrames ∧
    (s.snapFollowers pos).infillPreviewStart = s.infillPreviewStart ∧
    (s.snapFollowers pos).infillPreviewVisible =
      s.infillPreviewVisible ∧
    (s.snapFollowers pos).shownMaskFrame = s.shownMaskFrame ∧
    (s.snapFollowers pos).shownInfillFrame = s.shownInfillFrame ∧
    (s.snapFollowers pos).infillPos =
      (if s.infillFileActive then pos else s.infillPos) ∧
    (s.snapFollowers pos).maskPos =
      (if s.maskFileActive then pos else s.maskPos) := by
  have e2 : ∀ t : PlayerState α,
      PlayerState.maskFileActive { t with infillPos := pos } =
        PlayerState.maskFileActive t := fun _ => rfl
  unfold PlayerState.snapFollowers
  cases hi : PlayerState.infillFileActive s
  · simp only [Bool.false_eq_true, if_false]
    cases hm2 : PlayerState.maskFileActive s
    · simp
    · simp
  · simp only [if_true]
    rw [e2 s]
    cases hm2 : PlayerState.maskFileActive s
    · simp
    · simp

theorem refreshFrameIdx_proj (s : PlayerState α) (pos : ℤ) :
    (s.refreshFrameIdx pos).origPlaying = s.origPlaying ∧
    (s.refreshFrameIdx pos).timerActive = s.timerActive ∧
    (s.refreshFrameIdx pos).lastFrameMs = s.lastFrameMs ∧
    (s.refreshFrameIdx pos).origPos = s.origPos ∧
    (s.refreshFrameIdx pos).infillPos = s.infillPos ∧
    (s.refreshFrameIdx pos).maskPos = s.maskPos ∧
    (s.refreshFrameIdx pos).sliderValue = s.sliderValue ∧
    (s.refreshFrameIdx pos).sliderDown = s.sliderDown ∧
    (s.refreshFrameIdx pos).fps = s.fps ∧
    (s.refreshFrameIdx pos).showMode = s.showMode ∧
    (s.refreshFrameIdx pos).maskItemVisible = s.maskItemVisible ∧
    (s.refreshFrameIdx pos).maskOpacity = s.maskOpacity ∧
    (s.refreshFrameIdx pos).maskPreviewOpacity = s.maskPreviewOpacity ∧
    (s.refreshFrameIdx pos).maskPreviewFrames = s.maskPreviewFrames ∧
    (s.refreshFrameIdx pos).maskPreviewStart = s.maskPreviewStart ∧
    (s.refreshFrameIdx pos).maskPreviewVisible = s.maskPreviewVisible ∧
    (s.refreshFrameIdx pos).infillPreviewFrames =
      s.infillPreviewFrames ∧
    (s.refreshFrameIdx pos).infillPreviewStart = s.infillPreviewStart ∧
    (s.refreshFrameIdx pos).infillPreviewVisible =
      s.infillPreviewVisible ∧
    (s.refreshFrameIdx pos).shownMaskFrame = s.shownMaskFrame ∧
    (s.refreshFrameIdx pos).shownInfillFrame = s.shownInfillFrame := by
  unfold PlayerState.refreshFrameIdx
  split_ifs <;> simp

theorem refreshPreviews_proj (s : PlayerState α) :
    (s.refreshPreviews).origPlaying = s.origPlaying ∧
    (s.refreshPreviews).timerActive = s.timerActive ∧
    (s.refreshPreviews).lastFrameMs = s.lastFrameMs ∧
    (s.refreshPreviews).lastFrameIdx = s.lastFrameIdx ∧
    (s.refreshPreviews).origPos = s.origPos ∧
    (s.refreshPreviews).infillPos = s.infillPos ∧
    (s.refreshPreviews).maskPos = s.maskPos ∧
    (s.refreshPreviews).sliderValue = s.sliderValue ∧
    (s.refreshPreviews).sliderDown = s.sliderDown ∧
    (s.refreshPreviews).fps = s.fps ∧
    (s.refreshPreviews).showMode = s.showMode ∧
    (s.refreshPreviews).maskItemVisible = s.maskItemVisible ∧
    (s.refreshPreviews).maskOpacity = s.maskOpacity ∧
    (s.refreshPreviews).maskPreviewOpacity = s.maskPreviewOpacity ∧
    (s.refreshPreviews).maskPreviewFrames = s.maskPreviewFrames ∧
    (s.refreshPreviews).maskPreviewStart = s.maskPreviewStart ∧
    (s.refreshPreviews).infillPreviewFrames = s.infillPreviewFrames ∧
    (s.refreshPreviews).infillPreviewStart = s.infillPreviewStart := by
  unfold PlayerState.refreshPreviews
  simp only [updateMaskPreview_proj, updateInfillPreview_proj]
  simp

/-- The exact snap preserves the playback flags, the timer and the
recorded position, sets the slider, and repositions exactly the active
non-preview followers. -/
theorem snapAllTo_proj (s : PlayerState α) (pos : ℤ) (b : Bool) :
    (s.snapAllTo pos b).origPlaying = s.origPlaying ∧
    (s.snapAllTo pos b).timerActive = s.timerActive ∧
    (s.snapAllTo pos b).lastFrameMs = s.lastFrameMs ∧
    (s.snapAllTo pos b).sliderValue = pos ∧
    (s.snapAllTo pos b).infillPos =
      (if s.infillFileActive then pos else s.infillPos) ∧
    (s.snapAllTo pos b).maskPos =
      (if s.maskFileActive then pos else s.maskPos) := by
  unfold PlayerState.snapAllTo
  by_cases hb : b = true <;>
    simp [hb, refreshPreviews_proj, refreshFrameIdx_proj,
      snapFollowers_proj, PlayerState.infillFileActive,
      PlayerState.maskFileActive]

/-- A seek preserves the playback flags and the timer and records the
target position. -/
theorem seek_proj (s : PlayerState α) (pos : ℤ) :
    (s.seek pos).origPlaying = s.origPlaying ∧
    (s.seek pos).timerActive = s.timerActive ∧
    (s.seek pos).lastFrameMs = pos := by
  unfold PlayerState.seek
  dsimp only
  split_ifs <;>
    simp [refreshPreviews_proj, refreshFrameIdx_proj,
      snapFollowers_proj, snapAllTo_proj]

/-- C4: for both preview buffers, the per-frame lookup shows the layer
and pushes the frame at offset idx minus start exactly when the index
lies in the buffer range, and hides the layer otherwise (never leaving
a stale image showing); the infill lookup applies in infilled mode. -/
theorem c4_preview_frame_lookup (s : PlayerState α) (frames : List α)
    (idx : ℤ) :
    (s.maskPreviewFrames = some frames → frames ≠ [] →
      ((s.maskPreviewStart ≤ idx ∧
          idx < s.maskPreviewStart + frames.length →
        (s.updateMaskPreviewForFrame idx).maskPreviewVisible = true ∧
        (s.updateMaskPreviewForFrame idx).shownMaskFrame =
          frames[(idx - s.maskPreviewStart).toNat]? ∧
        (idx - s.maskPreviewStart).toNat < frames.length) ∧
       (¬(s.maskPreviewStart ≤ idx ∧
          idx < s.maskPreviewStart + frames.length) →
        (s.updateMaskPreviewForFrame idx).maskPreviewVisible =
          false))) ∧
    (s.infillPreviewFrames = some frames → frames ≠ [] →
      s.showMode = Mode.infilled →
      ((s.infillPreviewStart ≤ idx ∧
          idx < s.infillPreviewStart + frames.length →
        (s.updateInfillPreviewForFrame idx).infillPreviewVisible =
          true ∧
        (s.updateInfillPreviewForFrame idx).shownInfillFrame =
          frames[(idx - s.infillPreviewStart).toNat]? ∧
        (idx - s.infillPreviewStart).toNat < frames.length) ∧
       (¬(s.infillPreviewStart ≤ idx ∧
          idx < s.infillPreviewStart + frames.length) →
        (s.updateInfillPreviewForFrame idx).infillPreviewVisible =
          false))) := by
  constructor
  · intro hm hne
    have hemp : frames.isEmpty = false := by
      cases frames
      · exact absurd rfl hne
      · rfl
    constructor
    · rintro ⟨hlo, hhi⟩
      have hcond : ¬(idx - s.maskPreviewStart < 0 ∨
          (frames.length : ℤ) ≤ idx - s.maskPreviewStart) := by omega
      refine ⟨?_, ?_, ?_⟩
      · simp only [PlayerState.updateMaskPreviewForFrame, hm, hemp]
        rw [if_neg (show ¬(false = true) by simp), if_neg hcond]
      · simp only [PlayerState.updateMaskPreviewForFrame, hm, hemp]
        rw [if_neg (show ¬(false = true) by simp), if_neg hcond]
      · omega
    · intro hrange
      have hcond : idx - s.maskPreviewStart < 0 ∨
          (frames.length : ℤ) ≤ idx - s.maskPreviewStart := by omega
      simp only [PlayerState.updateMaskPreviewForFrame, hm, hemp]
      rw [if_neg (show ¬(false = true) by simp), if_pos hcond]
  · intro hm hne hmode
    have hemp : frames.isEmpty = false := by
      cases frames
      · exact absurd rfl hne
      · rfl
    have hne2 : ¬(s.showMode ≠ Mode.infilled) := by simp [hmode]
    constructor
    · rintro ⟨hlo, hhi⟩
      have hcond : ¬(idx - s.infillPreviewStart < 0 ∨
          (frames.length : ℤ) ≤ idx - s.infillPreviewStart) := by omega
      refine ⟨?_, ?_, ?_⟩
      · simp only [PlayerState.updateInfillPreviewForFrame, hm, hemp]
        rw [if_neg (show ¬(false = true) by simp), if_neg hne2,
          if_neg hcond]
      · simp only [PlayerState.updateInfillPreviewForFrame, hm, hemp]
        rw [if_neg (show ¬(false = true) by simp), if_neg hne2,
          if_neg hcond]
      · omega
    · intro hrange
      have hcond : idx - s.infillPreviewStart < 0 ∨
          (frames.length : ℤ) ≤ idx - s.infillPreviewStart := by omega
      simp only [PlayerState.updateInfillPreviewForFrame, hm, hemp]
      rw [if_neg (show ¬(false = true) by simp), if_neg hne2,
        if_pos hcond]

/-- C4 witness: with a five-frame buffer starting at frame 100, the
lookup at 104 shows the fifth frame, and the lookups at 99 and 105 hide
the layer. -/
theorem c4_preview_frame_lookup_witness :
    (PlayerState.updateMaskPreviewForFrame bufferStateEx
      104).maskPreviewVisible = true ∧
    (PlayerState.updateMaskPreviewForFrame bufferStateEx
      104).shownMaskFrame = some 50 ∧
    (PlayerState.updateMaskPreviewForFrame bufferStateEx
      99).maskPreviewVisible = false ∧
    (PlayerState.updateMaskPreviewForFrame bufferStateEx
      105).maskPreviewVisible = false := by
  have h104 := ((c4_preview_frame_lookup bufferStateEx
    [10, 20, 30, 40, 50] 104).1 rfl (by simp)).1 (by constructor <;> decide)
  have h99 := ((c4_preview_frame_lookup bufferStateEx
    [10, 20, 30, 40, 50] 99).1 rfl (by simp)).2 (by decide)
  have h105 := ((c4_preview_frame_lookup bufferStateEx
    [10, 20, 30, 40, 50] 105).1 rfl (by simp)).2 (by decide)
  exact ⟨h104.1, h104.2.1.trans rfl, h99, h105⟩

/-- C5 counterexample: from a Playing state with the drift timer
running, stop() leaves the master playing and the timer running: it
does not transition to a non-playing state and does not stop the
timer. -/
theorem c5_stop_counterexample :
    (PlayerState.stop playingStateEx).origPlaying = true ∧
    (PlayerState.stop playingStateEx).timerActive = true :=
  ⟨rfl, rfl⟩

/-- C5 amended: stop() consists solely of seek(0): it resets the
recorded position to 0 ms (performing the seek-time refresh and, only
when already non-playing, an exact snap), but it preserves the playback
state and the drift timer state. -/
theorem c5_stop (s : PlayerState α) :
    s.stop = s.seek 0 ∧
    (s.stop).origPlaying = s.origPlaying ∧
    (s.stop).timerActive = s.timerActive ∧
    (s.stop).lastFrameMs = 0 := by
  obtain ⟨h1, h2, h3⟩ := seek_proj s 0
  exact ⟨rfl, h1, h2, h3⟩

/-- C6: after pause(), the file infill follower (when infilled mode is
on and no infill preview is set) and the file mask follower (when the
mask layer is visible and no mask preview is set) sit exactly at the
master last known position, with no threshold involved; pausing also
stops playback and the drift timer. -/
theorem c6_pause_exact_snap (s : PlayerState α) :
    ((s.showMode = Mode.infilled ∧ s.infillPreviewFrames = none) →
      (s.pause_all).infillPos = s.masterKnownPos) ∧
    ((s.maskItemVisible = true ∧ s.maskPreviewFrames = none) →
      (s.pause_all).maskPos = s.masterKnownPos) ∧
    (s.pause_all).origPlaying = false ∧
    (s.pause_all).timerActive = false := by
  obtain ⟨hop, hta, hlm, hsv, hip, hmp⟩ := snapAllTo_proj
    { s with origPlaying := false, infillPlaying := false,
             maskPlaying := false, timerActive := false }
    (PlayerState.masterKnownPos
      { s with origPlaying := false, infillPlaying := false,
               maskPlaying := false, timerActive := false }) false
  refine ⟨fun ⟨h1, h2⟩ => ?_, fun ⟨h1, h2⟩ => ?_, ?_, ?_⟩
  · have e : (s.pause_all).infillPos = _ := hip
    rw [e, if_pos (show PlayerState.infillFileActive
      { s with origPlaying := false, infillPlaying := false,
               maskPlaying := false, timerActive := false } = true by
        simp [PlayerState.infillFileActive, h1, h2])]
    rfl
  · have e : (s.pause_all).maskPos = _ := hmp
    rw [e, if_pos (show PlayerState.maskFileActive
      { s with origPlaying := false, infillPlaying := false,
               maskPlaying := false, timerActive := false } = true by
        simp [PlayerState.maskFileActive, h1, h2])]
    rfl
  · exact hop
  · exact hta

/-- C6 witness: in the concrete infilled-mode state with the mask
visible and no previews, pausing snaps both followers to the known
master position of 1234 ms. -/
theorem c6_pause_exact_snap_witness :
    (PlayerState.pause_all snapStateEx).infillPos = 1234 ∧
    (PlayerState.pause_all snapStateEx).maskPos = 1234 ∧
    (PlayerState.pause_all snapStateEx).origPlaying = false ∧
    (PlayerState.pause_all snapStateEx).timerActive = false := by
  have h := c6_pause_exact_snap snapStateEx
  exact ⟨(h.1 ⟨rfl, rfl⟩).trans rfl, (h.2.1 ⟨rfl, rfl⟩).trans rfl,
    h.2.2.1, h.2.2.2⟩

/-- C8: with no infilled video path and no infill preview frames,
switching to infilled mode is rejected: a warning is reported, the
Original radio button is restored, the player state (and with it the
mode, which stays original) is untouched. -/
theorem c8_infilled_mode_rejected (m : MainState α)
    (hpath : m.infilledVideoPathSet = false)
    (hprev : m.player.infillPreviewFrames = none)
    (hmode : m.player.showMode = Mode.original) :
    (mwSetMode m Mode.infilled).player = m.player ∧
    (mwSetMode m Mode.infilled).player.showMode = Mode.original ∧
    (mwSetMode m Mode.infilled).warned = true ∧
    (mwSetMode m Mode.infilled).rbOriginalChecked = true ∧
    (mwSetMode m Mode.infilled).infilledVideoPathSet = false := by
  have hc : Mode.infilled = Mode.infilled ∧
      m.infilledVideoPathSet = false ∧
      m.player.infillPreviewFrames.isNone = true :=
    ⟨rfl, hpath, by rw [hprev]; rfl⟩
  unfold mwSetMode
  rw [if_pos hc]
  exact ⟨rfl, hmode, rfl, rfl, hpath⟩

/-- C8 witness: the rejection evaluated on a concrete session with no
infilled sources. -/
theorem c8_infilled_mode_rejected_witness :
    (mwSetMode mainStateEx Mode.infilled).player = mainStateEx.player ∧
    (mwSetMode mainStateEx Mode.infilled).warned = true ∧
    (mwSetMode mainStateEx Mode.infilled).player.showMode =
      Mode.original := by
  have h := c8_infilled_mode_rejected mainStateEx rfl rfl rfl
  exact ⟨h.1, h.2.2.1, h.2.1⟩

/-- C10 counterexample: setting a nonempty one-frame mask preview with
an explicit start frame of 100 while the current frame index is 0 ends
with the mask preview layer hidden (the immediate per-frame update
hides it because the current frame is outside the buffer range), so the
call does not make the preview layer visible. -/
theorem c10_counterexample :
    ((7 : ℕ) :: []) ≠ [] ∧
    (PlayerState.set_mask_preview_frames bufferStateEx [7]
      (some 100)).maskPreviewVisible = false :=
  ⟨by simp, rfl⟩

/-- C10 amended: for every nonempty frame list, setting the mask
preview buffer unconditionally hides the file mask layer and resets the
mask preview opacity to 0.5 (whatever visibility or opacity was
configured before), stores the frames, and leaves the preview layer
visible exactly when the current frame index lies inside the new buffer
range (with the default start this is always the case; with an explicit
out-of-range start the immediate update hides the layer again). -/
theorem c10_set_mask_preview (s : PlayerState α) (frames : List α)
    (startFrame : Option ℤ) (h : frames ≠ []) :
    (s.set_mask_preview_frames frames startFrame).maskItemVisible =
      false ∧
    (s.set_mask_preview_frames frames startFrame).maskPreviewOpacity =
      1/2 ∧
    (s.set_mask_preview_frames frames startFrame).maskPreviewFrames =
      some frames ∧
    ((s.set_mask_preview_frames frames startFrame).maskPreviewVisible =
        true ↔
      (s.resolvedStart startFrame ≤ s.lastFrameIdx ∧
       s.lastFrameIdx <
         s.resolvedStart startFrame + frames.length)) := by
  have hemp : frames.isEmpty = false := by
    cases frames
    · exact absurd rfl h
    · rfl
  unfold PlayerState.set_mask_preview_frames
  rw [hemp]
  rw [if_neg (show ¬(false = true) by simp)]
  by_cases hr : s.lastFrameIdx - PlayerState.resolvedStart s startFrame
      < 0 ∨ (frames.length : ℤ) ≤
        s.lastFrameIdx - PlayerState.resolvedStart s startFrame
  · refine ⟨?_, ?_, ?_, ?_⟩
    · simp only [PlayerState.updateMaskPreviewForFrame,
        PlayerState.currentFrameIdx, hemp]
      rw [if_neg (show ¬(false = true) by simp), if_pos hr]
    · simp only [PlayerState.updateMaskPreviewForFrame,
        PlayerState.currentFrameIdx, hemp]
      rw [if_neg (show ¬(false = true) by simp), if_pos hr]
    · simp only [PlayerState.updateMaskPreviewForFrame,
        PlayerState.currentFrameIdx, hemp]
      rw [if_neg (show ¬(false = true) by simp), if_pos hr]
    · simp only [PlayerState.updateMaskPreviewForFrame,
        PlayerState.currentFrameIdx, hemp]
      rw [if_neg (show ¬(false = true) by simp), if_pos hr]
      constructor
      · intro hfalse
        exact absurd hfalse (by simp)
      · intro hrange
        omega
  · refine ⟨?_, ?_, ?_, ?_⟩
    · simp only [PlayerState.updateMaskPreviewForFrame,
        PlayerState.currentFrameIdx, hemp]
      rw [if_neg (show ¬(false = true) by simp), if_neg hr]
    · simp only [PlayerState.updateMaskPreviewForFrame,
        PlayerState.currentFrameIdx, hemp]
      rw [if_neg (show ¬(false = true) by simp), if_neg hr]
    · simp only [PlayerState.updateMaskPreviewForFrame,
        PlayerState.currentFrameIdx, hemp]
      rw [if_neg (show ¬(false = true) by simp), if_neg hr]
    · simp only [PlayerState.updateMaskPreviewForFrame,
        PlayerState.currentFrameIdx, hemp]
      rw [if_neg (show ¬(false = true) by simp), if_neg hr]
      constructor
      · intro _
        omega
      · intro _
        rfl

/-- C10 witness: the amended statement evaluated with the default start
frame on a concrete paused state: the file mask layer is hidden, the
opacity becomes 0.5, and the preview is visible. -/
theorem c10_set_mask_preview_witness :
    (PlayerState.set_mask_preview_frames idleStateEx [5]
      none).maskItemVisible = false ∧
    (PlayerState.set_mask_preview_frames idleStateEx [5]
      none).maskPreviewOpacity = 1/2 ∧
    (PlayerState.set_mask_preview_frames idleStateEx [5]
      none).maskPreviewVisible = true := by
  have h := c10_set_mask_preview idleStateEx [5] none (by simp)
  refine ⟨h.1, h.2.1, h.2.2.2.mpr ⟨?_, ?_⟩⟩
  · decide
  · decide

end PlayerTheorems

end VideoVanish
